import Mathlib

/-!
Shallow embedding of the MultiCompass Arduino driver
(src/src/MultiCompass.cpp, src/include/MultiCompassHMC5883L.h,
src/unnamed/part_000 = MultiCompass.h) and proofs about its
calibration, scaling, heading and register-manipulation logic.

Modelling conventions:
* C `float` arithmetic is idealized as exact arithmetic, over `ℚ` for the
  order/field operations of calibration and scaling, and over `ℝ` for the
  heading computation (which calls `atan2f`).
* `millis()` is modelled as a clock value `now : ℕ` passed to each call; the
  several `millis()` calls inside one `calibration` invocation are taken to
  return the same reading.
* The `lastCalibration` member has C type `long long`; it is modelled as `ℤ`.
  The C expression `millis() - settings.lastCalibration` promotes both
  operands to `long long`, so it is exact integer subtraction, modelled as
  subtraction in `ℤ`.
* The constructor `MultiCompass::MultiCompass` leaves `lastCalibration`
  uninitialized, so the initial state takes it as a parameter `lc`.
* Device registers are bytes modelled as `ℕ` values below 256; conversions to
  `uint8_t` are `% 256`.
-/

/-- Mirror of the C struct CompassData (MultiCompass.h lines 19-28):
raw readings, scaled readings and a heading, all C floats, here over a
scalar type `a`. -/
structure CompassData (a : Type) where
  rawX : a
  rawY : a
  rawZ : a
  scaledX : a
  scaledY : a
  scaledZ : a
  heading : a
deriving DecidableEq

/-- Mirror of the C struct CompassSetting (MultiCompass.h lines 30-40):
six calibration bounds and the declination offset (stored in the field
named heading), all C floats over a scalar type `a`, plus the
lastCalibration timestamp of C type long long, modelled as `ℤ`. -/
structure CompassSetting (a : Type) where
  minX : a
  minY : a
  minZ : a
  maxX : a
  maxY : a
  maxZ : a
  heading : a
  lastCalibration : ℤ
deriving DecidableEq

/-- Mirror of the constructor MultiCompass::MultiCompass
(MultiCompass.cpp lines 24-37): heading 0, mins 100000, maxes -100000.
The constructor does not write lastCalibration, so the indeterminate
initial value is the parameter `lc`. -/
def initSettings (lc : ℤ) : CompassSetting ℚ :=
  { minX := 100000, minY := 100000, minZ := 100000,
    maxX := -100000, maxY := -100000, maxZ := -100000,
    heading := 0, lastCalibration := lc }

/-- Mirror of MultiCompass::setDeclinationAngle (MultiCompass.cpp lines 42-46):
overwrites the heading (declination) setting. -/
def setDeclinationAngle (s : CompassSetting ℚ) (declinationAngle : ℚ) :
    CompassSetting ℚ :=
  { s with heading := declinationAngle }

/-- Mirror of MultiCompass::setCalibration (MultiCompass.cpp lines 52-63):
copies the six bounds and the heading (declination) from the supplied
record and sets lastCalibration to 0. -/
def setCalibration (s : CompassSetting ℚ) (src : CompassSetting ℚ) :
    CompassSetting ℚ :=
  { s with
    minX := src.minX, minY := src.minY, minZ := src.minZ,
    maxX := src.maxX, maxY := src.maxY, maxZ := src.maxZ,
    heading := src.heading,
    lastCalibration := 0 }

/-- Mirror of the function getCalibration as written in MultiCompass.cpp
lines 69-73.  In the source this function is a free function, not the
member MultiCompass::getCalibration declared in the header, so no compass
instance and no compass settings are among its inputs.  Its whole body is
memcpy(settings, &settings, sizeof(settings)), where settings is the
destination pointer parameter itself: it copies sizeof(CompassSetting*)
bytes of the storage of that pointer over the start of the destination
record.  On the 16/32-bit Arduino targets those bytes land inside the
leading float field minX; the value those pointer bytes reinterpret to is
the parameter `ptrJunk`.  The decisive modelled fact is that the result
depends only on `ptrJunk` and `dest`, never on any compass state. -/
def getCalibration (ptrJunk : ℚ) (dest : CompassSetting ℚ) :
    CompassSetting ℚ :=
  { dest with minX := ptrJunk }

/-- Mirror of the first if block of MultiCompassHMC5883L::calibration
(MultiCompass.cpp lines 386-390): a smaller rawX lowers minX and refreshes
the timestamp. -/
def updMinX (d : CompassData ℚ) (now : ℕ) (s : CompassSetting ℚ) :
    CompassSetting ℚ :=
  if d.rawX < s.minX then { s with minX := d.rawX, lastCalibration := (now : ℤ) }
  else s

/-- Mirror of the second if block (MultiCompass.cpp lines 391-395). -/
def updMinY (d : CompassData ℚ) (now : ℕ) (s : CompassSetting ℚ) :
    CompassSetting ℚ :=
  if d.rawY < s.minY then { s with minY := d.rawY, lastCalibration := (now : ℤ) }
  else s

/-- Mirror of the third if block (MultiCompass.cpp lines 396-400). -/
def updMinZ (d : CompassData ℚ) (now : ℕ) (s : CompassSetting ℚ) :
    CompassSetting ℚ :=
  if d.rawZ < s.minZ then { s with minZ := d.rawZ, lastCalibration := (now : ℤ) }
  else s

/-- Mirror of the fourth if block (MultiCompass.cpp lines 403-407): a larger
rawX raises maxX and refreshes the timestamp. -/
def updMaxX (d : CompassData ℚ) (now : ℕ) (s : CompassSetting ℚ) :
    CompassSetting ℚ :=
  if d.rawX > s.maxX then { s with maxX := d.rawX, lastCalibration := (now : ℤ) }
  else s

/-- Mirror of the fifth if block (MultiCompass.cpp lines 408-412). -/
def updMaxY (d : CompassData ℚ) (now : ℕ) (s : CompassSetting ℚ) :
    CompassSetting ℚ :=
  if d.rawY > s.maxY then { s with maxY := d.rawY, lastCalibration := (now : ℤ) }
  else s

/-- Mirror of the sixth if block (MultiCompass.cpp lines 413-417). -/
def updMaxZ (d : CompassData ℚ) (now : ℕ) (s : CompassSetting ℚ) :
    CompassSetting ℚ :=
  if d.rawZ > s.maxZ then { s with maxZ := d.rawZ, lastCalibration := (now : ℤ) }
  else s

/-- State update performed by MultiCompassHMC5883L::calibration
(MultiCompass.cpp lines 383-418): the six if blocks run in source order. -/
def calibUpdate (s : CompassSetting ℚ) (d : CompassData ℚ) (now : ℕ) :
    CompassSetting ℚ :=
  updMaxZ d now (updMaxY d now (updMaxX d now
    (updMinZ d now (updMinY d now (updMinX d now s)))))

/-- Default value of the calibrationPeriod member
(MultiCompassHMC5883L.h line 152). -/
def defaultCalibrationPeriod : ℤ := 1000

/-- Mirror of MultiCompassHMC5883L::calibration (MultiCompass.cpp lines
383-421): runs the six bound updates, then returns the updated settings
together with the completion flag
(millis() - settings.lastCalibration) > calibrationPeriod. -/
def calibration (period : ℤ) (s : CompassSetting ℚ) (d : CompassData ℚ)
    (now : ℕ) : CompassSetting ℚ × Bool :=
  let s6 := calibUpdate s d now
  (s6, decide (((now : ℤ) - s6.lastCalibration) > period))

/-- Fold of calibration calls over a list of (sample, clock) pairs starting
from the freshly constructed settings. -/
def runCalibration (lc : ℤ) (period : ℤ)
    (calls : List (CompassData ℚ × ℕ)) : CompassSetting ℚ :=
  calls.foldl (fun s c => (calibration period s c.1 c.2).1) (initSettings lc)

/-- States of the settings record reachable through the public operations:
construction, calibration steps, bulk seeding and declination updates. -/
inductive ReachableSetting : CompassSetting ℚ → Prop where
  | init (lc : ℤ) : ReachableSetting (initSettings lc)
  | calib (s : CompassSetting ℚ) (period : ℤ) (d : CompassData ℚ) (now : ℕ) :
      ReachableSetting s → ReachableSetting (calibration period s d now).1
  | seed (s src : CompassSetting ℚ) :
      ReachableSetting s → ReachableSetting (setCalibration s src)
  | decl (s : CompassSetting ℚ) (a : ℚ) :
      ReachableSetting s → ReachableSetting (setDeclinationAngle s a)

/-- Mirror of MultiCompass::scaleData (MultiCompass.cpp lines 79-89):
each axis is first centered by the bound midpoint, then divided by half the
sum of the absolute bounds. -/
def scaleData (s : CompassSetting ℚ) (d : CompassData ℚ) : CompassData ℚ :=
  let sx0 := d.rawX - (s.maxX + s.minX) / 2
  let sy0 := d.rawY - (s.maxY + s.minY) / 2
  let sz0 := d.rawZ - (s.maxZ + s.minZ) / 2
  { d with
    scaledX := sx0 / ((abs s.maxX + abs s.minX) / 2),
    scaledY := sy0 / ((abs s.maxY + abs s.minY) / 2),
    scaledZ := sz0 / ((abs s.maxZ + abs s.minZ) / 2) }

/-- Per-axis scaling formula exactly as the specification words it:
scaled = (raw - (max+min)/2) / ((abs max + abs min)/2).  Stated separately
from `scaleData` so that the two can be compared. -/
def specScaledAxis (raw mn mx : ℚ) : ℚ :=
  (raw - (mx + mn) / 2) / ((abs mx + abs mn) / 2)

/-- C99 semantics of atan2 over exact reals (the source calls atan2f from
libm, an external library, at MultiCompass.cpp line 118): the angle of the
point (x, y), in (-pi, pi].  Signed zeros do not exist over the reals, so
atan2 0 0 = 0 as for the positive zeros in C. -/
noncomputable def atan2 (y x : ℝ) : ℝ :=
  if 0 < x then Real.arctan (y / x)
  else if x < 0 then
    (if 0 ≤ y then Real.arctan (y / x) + Real.pi
     else Real.arctan (y / x) - Real.pi)
  else if 0 < y then Real.pi / 2
  else if y < 0 then -(Real.pi / 2)
  else 0

/-- Axis selection of MultiCompass::calculateHeading (MultiCompass.cpp
lines 100-115): the pair (axis1, axis2); axis1 and axis2 start at 0 and the
first-match if chain on the int weights x, y, z multiplies two scaled axes
by the matching weight. -/
noncomputable def headingAxes (d : CompassData ℝ) (x y z : ℤ) : ℝ × ℝ :=
  if x ≠ 0 then (d.scaledY * (x : ℝ), d.scaledZ * (x : ℝ))
  else if y ≠ 0 then (d.scaledX * (y : ℝ), d.scaledZ * (y : ℝ))
  else if z ≠ 0 then (d.scaledX * (z : ℝ), d.scaledY * (z : ℝ))
  else (0, 0)

/-- Normalization branch of MultiCompass::calculateHeading
(MultiCompass.cpp lines 124-131): add two pi once when negative, else
subtract two pi once when strictly greater than two pi. -/
noncomputable def normalizeHeading (h : ℝ) : ℝ :=
  if h < 0 then h + 2 * Real.pi
  else if h > 2 * Real.pi then h - 2 * Real.pi
  else h

/-- Mirror of MultiCompass::calculateHeading (MultiCompass.cpp lines
98-132): heading = atan2(axis2, axis1), plus the declination stored in
settings.heading, then single-pass normalization; stored into the data
record. -/
noncomputable def calculateHeading (s : CompassSetting ℝ) (d : CompassData ℝ)
    (x y z : ℤ) : CompassData ℝ :=
  let a := headingAxes d x y z
  { d with heading := normalizeHeading (atan2 a.2 a.1 + s.heading) }

/-! Register bit manipulation of the device profile
(MultiCompassHMC5883L).  Each operation is modelled as the pure transform
it applies to the byte content of its register: `old` is the byte the
read-modify-write sequence would read back, the result is the byte passed
to writeByte.  Enum arguments are their numeric encodings. -/

/-- Mirror of MultiCompassHMC5883L::setMode (MultiCompass.cpp lines
278-284): value &= 0b11111100; value |= mode. -/
def setModeReg (old mode : ℕ) : ℕ :=
  ((old &&& 0b11111100) ||| mode) % 256

/-- Mirror of MultiCompassHMC5883L::getMode (MultiCompass.cpp lines
289-294): value &= 0b00000011. -/
def getModeReg (v : ℕ) : ℕ :=
  v &&& 0b00000011

/-- Mirror of MultiCompassHMC5883L::setFieldRange (MultiCompass.cpp lines
299-302): writeByte(HMC5883L_REGISTER_CONFIG_B, range << 5) with no
preceding read; the register content is replaced wholesale. -/
def setFieldRangeReg (_old range : ℕ) : ℕ :=
  (range <<< 5) % 256

/-- Mirror of MultiCompassHMC5883L::getFieldRange (MultiCompass.cpp lines
309-316): (value >> 5) & 0b00000011 — a two-bit mask. -/
def getFieldRangeReg (v : ℕ) : ℕ :=
  (v >>> 5) &&& 0b00000011

/-- Mirror of MultiCompassHMC5883L::setOutputRate (MultiCompass.cpp lines
323-332): value &= 0b11100011; value |= (samplerate << 2). -/
def setOutputRateReg (old rate : ℕ) : ℕ :=
  ((old &&& 0b11100011) ||| (rate <<< 2)) % 256

/-- Mirror of MultiCompassHMC5883L::getOutputRate (MultiCompass.cpp lines
338-346): (value & 0b00011100) >> 2. -/
def getOutputRateReg (v : ℕ) : ℕ :=
  (v &&& 0b00011100) >>> 2

/-- Mirror of MultiCompassHMC5883L::setAveragedSamples (MultiCompass.cpp
lines 352-361): value &= 0b10011111; value |= (samples << 5). -/
def setAveragedSamplesReg (old samples : ℕ) : ℕ :=
  ((old &&& 0b10011111) ||| (samples <<< 5)) % 256

section CalibLemmas

variable (d : CompassData ℚ) (now : ℕ) (s : CompassSetting ℚ)

@[simp] lemma updMinX_minX :
    (updMinX d now s).minX = if d.rawX < s.minX then d.rawX else s.minX := by
  unfold updMinX; split <;> rfl

@[simp] lemma updMinX_minY : (updMinX d now s).minY = s.minY := by
  unfold updMinX; split <;> rfl

@[simp] lemma updMinX_minZ : (updMinX d now s).minZ = s.minZ := by
  unfold updMinX; split <;> rfl

@[simp] lemma updMinX_maxX : (updMinX d now s).maxX = s.maxX := by
  unfold updMinX; split <;> rfl

@[simp] lemma updMinX_maxY : (updMinX d now s).maxY = s.maxY := by
  unfold updMinX; split <;> rfl

@[simp] lemma updMinX_maxZ : (updMinX d now s).maxZ = s.maxZ := by
  unfold updMinX; split <;> rfl

@[simp] lemma updMinX_last :
    (updMinX d now s).lastCalibration =
      if d.rawX < s.minX then (now : ℤ) else s.lastCalibration := by
  unfold updMinX; split <;> rfl

@[simp] lemma updMinY_minX : (updMinY d now s).minX = s.minX := by
  unfold updMinY; split <;> rfl

@[simp] lemma updMinY_minY :
    (updMinY d now s).minY = if d.rawY < s.minY then d.rawY else s.minY := by
  unfold updMinY; split <;> rfl

@[simp] lemma updMinY_minZ : (updMinY d now s).minZ = s.minZ := by
  unfold updMinY; split <;> rfl

@[simp] lemma updMinY_maxX : (updMinY d now s).maxX = s.maxX := by
  unfold updMinY; split <;> rfl

@[simp] lemma updMinY_maxY : (updMinY d now s).maxY = s.maxY := by
  unfold updMinY; split <;> rfl

@[simp] lemma updMinY_maxZ : (updMinY d now s).maxZ = s.maxZ := by
  unfold updMinY; split <;> rfl

@[simp] lemma updMinY_last :
    (updMinY d now s).lastCalibration =
      if d.rawY < s.minY then (now : ℤ) else s.lastCalibration := by
  unfold updMinY; split <;> rfl

@[simp] lemma updMinZ_minX : (updMinZ d now s).minX = s.minX := by
  unfold updMinZ; split <;> rfl

@[simp] lemma updMinZ_minY : (updMinZ d now s).minY = s.minY := by
  unfold updMinZ; split <;> rfl

@[simp] lemma updMinZ_minZ :
    (updMinZ d now s).minZ = if d.rawZ < s.minZ then d.rawZ else s.minZ := by
  unfold updMinZ; split <;> rfl

@[simp] lemma updMinZ_maxX : (updMinZ d now s).maxX = s.maxX := by
  unfold updMinZ; split <;> rfl

@[simp] lemma updMinZ_maxY : (updMinZ d now s).maxY = s.maxY := by
  unfold updMinZ; split <;> rfl

@[simp] lemma updMinZ_maxZ : (updMinZ d now s).maxZ = s.maxZ := by
  unfold updMinZ; split <;> rfl

@[simp] lemma updMinZ_last :
    (updMinZ d now s).lastCalibration =
      if d.rawZ < s.minZ then (now : ℤ) else s.lastCalibration := by
  unfold updMinZ; split <;> rfl

@[simp] lemma updMaxX_minX : (updMaxX d now s).minX = s.minX := by
  unfold updMaxX; split <;> rfl

@[simp] lemma updMaxX_minY : (updMaxX d now s).minY = s.minY := by
  unfold updMaxX; split <;> rfl

@[simp] lemma updMaxX_minZ : (updMaxX d now s).minZ = s.minZ := by
  unfold updMaxX; split <;> rfl

@[simp] lemma updMaxX_maxX :
    (updMaxX d now s).maxX = if d.rawX > s.maxX then d.rawX else s.maxX := by
  unfold updMaxX; split <;> rfl

@[simp] lemma updMaxX_maxY : (updMaxX d now s).maxY = s.maxY := by
  unfold updMaxX; split <;> rfl

@[simp] lemma updMaxX_maxZ : (updMaxX d now s).maxZ = s.maxZ := by
  unfold updMaxX; split <;> rfl

@[simp] lemma updMaxX_last :
    (updMaxX d now s).lastCalibration =
      if d.rawX > s.maxX then (now : ℤ) else s.lastCalibration := by
  unfold updMaxX; split <;> rfl

@[simp] lemma updMaxY_minX : (updMaxY d now s).minX = s.minX := by
  unfold updMaxY; split <;> rfl

@[simp] lemma updMaxY_minY : (updMaxY d now s).minY = s.minY := by
  unfold updMaxY; split <;> rfl

@[simp] lemma updMaxY_minZ : (updMaxY d now s).minZ = s.minZ := by
  unfold updMaxY; split <;> rfl

@[simp] lemma updMaxY_maxX : (updMaxY d now s).maxX = s.maxX := by
  unfold updMaxY; split <;> rfl

@[simp] lemma updMaxY_maxY :
    (updMaxY d now s).maxY = if d.rawY > s.maxY then d.rawY else s.maxY := by
  unfold updMaxY; split <;> rfl

@[simp] lemma updMaxY_maxZ : (updMaxY d now s).maxZ = s.maxZ := by
  unfold updMaxY; split <;> rfl

@[simp] lemma updMaxY_last :
    (updMaxY d now s).lastCalibration =
      if d.rawY > s.maxY then (now : ℤ) else s.lastCalibration := by
  unfold updMaxY; split <;> rfl

@[simp] lemma updMaxZ_minX : (updMaxZ d now s).minX = s.minX := by
  unfold updMaxZ; split <;> rfl

@[simp] lemma updMaxZ_minY : (updMaxZ d now s).minY = s.minY := by
  unfold updMaxZ; split <;> rfl

@[simp] lemma updMaxZ_minZ : (updMaxZ d now s).minZ = s.minZ := by
  unfold updMaxZ; split <;> rfl

@[simp] lemma updMaxZ_maxX : (updMaxZ d now s).maxX = s.maxX := by
  unfold updMaxZ; split <;> rfl

@[simp] lemma updMaxZ_maxY : (updMaxZ d now s).maxY = s.maxY := by
  unfold updMaxZ; split <;> rfl

@[simp] lemma updMaxZ_maxZ :
    (updMaxZ d now s).maxZ = if d.rawZ > s.maxZ then d.rawZ else s.maxZ := by
  unfold updMaxZ; split <;> rfl

@[simp] lemma updMaxZ_last :
    (updMaxZ d now s).lastCalibration =
      if d.rawZ > s.maxZ then (now : ℤ) else s.lastCalibration := by
  unfold updMaxZ; split <;> rfl

lemma calibUpdate_minX :
    (calibUpdate s d now).minX = if d.rawX < s.minX then d.rawX else s.minX := by
  simp [calibUpdate]

lemma calibUpdate_minY :
    (calibUpdate s d now).minY = if d.rawY < s.minY then d.rawY else s.minY := by
  simp [calibUpdate]

lemma calibUpdate_minZ :
    (calibUpdate s d now).minZ = if d.rawZ < s.minZ then d.rawZ else s.minZ := by
  simp [calibUpdate]

lemma calibUpdate_maxX :
    (calibUpdate s d now).maxX = if d.rawX > s.maxX then d.rawX else s.maxX := by
  simp [calibUpdate]

lemma calibUpdate_maxY :
    (calibUpdate s d now).maxY = if d.rawY > s.maxY then d.rawY else s.maxY := by
  simp [calibUpdate]

lemma calibUpdate_maxZ :
    (calibUpdate s d now).maxZ = if d.rawZ > s.maxZ then d.rawZ else s.maxZ := by
  simp [calibUpdate]

lemma calibUpdate_last :
    (calibUpdate s d now).lastCalibration =
      if d.rawZ > s.maxZ then (now : ℤ)
      else if d.rawY > s.maxY then (now : ℤ)
      else if d.rawX > s.maxX then (now : ℤ)
      else if d.rawZ < s.minZ then (now : ℤ)
      else if d.rawY < s.minY then (now : ℤ)
      else if d.rawX < s.minX then (now : ℤ)
      else s.lastCalibration := by
  simp [calibUpdate]

end CalibLemmas

lemma calibration_fst (period : ℤ) (s : CompassSetting ℚ) (d : CompassData ℚ)
    (now : ℕ) : (calibration period s d now).1 = calibUpdate s d now := rfl

lemma axisStep_le (m M r : ℚ) (h : m ≤ M ∨ (m = 100000 ∧ M = -100000)) :
    (if r < m then r else m) ≤ (if r > M then r else M) := by
  rcases h with h | ⟨hm, hM⟩
  · split_ifs with h1 h2 <;> push_neg at * <;> linarith
  · subst hm; subst hM; split_ifs with h1 h2 <;> push_neg at * <;> linarith

/-- Per-axis invariant of every state reachable by calibration steps from
the constructed state: either the bounds are already ordered, or they are
still the untouched constructor sentinels. -/
def boundsOk (s : CompassSetting ℚ) : Prop :=
  (s.minX ≤ s.maxX ∨ (s.minX = 100000 ∧ s.maxX = -100000)) ∧
  (s.minY ≤ s.maxY ∨ (s.minY = 100000 ∧ s.maxY = -100000)) ∧
  (s.minZ ≤ s.maxZ ∨ (s.minZ = 100000 ∧ s.maxZ = -100000))

/-- Ordered bounds on all three axes. -/
def boundsTight (s : CompassSetting ℚ) : Prop :=
  s.minX ≤ s.maxX ∧ s.minY ≤ s.maxY ∧ s.minZ ≤ s.maxZ

lemma boundsOk_init (lc : ℤ) : boundsOk (initSettings lc) :=
  ⟨Or.inr ⟨rfl, rfl⟩, Or.inr ⟨rfl, rfl⟩, Or.inr ⟨rfl, rfl⟩⟩

lemma boundsTight_boundsOk (s : CompassSetting ℚ) (h : boundsTight s) :
    boundsOk s :=
  ⟨Or.inl h.1, Or.inl h.2.1, Or.inl h.2.2⟩

lemma calibUpdate_tight (s : CompassSetting ℚ) (d : CompassData ℚ) (now : ℕ)
    (h : boundsOk s) : boundsTight (calibUpdate s d now) := by
  obtain ⟨h1, h2, h3⟩ := h
  refine ⟨?_, ?_, ?_⟩
  · rw [calibUpdate_minX, calibUpdate_maxX]; exact axisStep_le _ _ _ h1
  · rw [calibUpdate_minY, calibUpdate_maxY]; exact axisStep_le _ _ _ h2
  · rw [calibUpdate_minZ, calibUpdate_maxZ]; exact axisStep_le _ _ _ h3

lemma foldl_boundsOk (period : ℤ) (l : List (CompassData ℚ × ℕ))
    (s : CompassSetting ℚ) (h : boundsOk s) :
    boundsOk (l.foldl (fun s c => (calibration period s c.1 c.2).1) s) := by
  induction l generalizing s with
  | nil => exact h
  | cons c l ih =>
      rw [List.foldl_cons, calibration_fst]
      exact ih _ (boundsTight_boundsOk _ (calibUpdate_tight _ _ _ h))

lemma foldl_boundsTight (period : ℤ) (l : List (CompassData ℚ × ℕ))
    (s : CompassSetting ℚ) (h : boundsTight s) :
    boundsTight (l.foldl (fun s c => (calibration period s c.1 c.2).1) s) := by
  induction l generalizing s with
  | nil => exact h
  | cons c l ih =>
      rw [List.foldl_cons, calibration_fst]
      exact ih _ (calibUpdate_tight _ _ _ (boundsTight_boundsOk _ h))

/-- Claim C2: across successive calibration calls each stored minimum is
non-increasing and each stored maximum is non-decreasing on every axis,
and after a sequence of calls from the constructed state that contains at
least one sample lying within the sentinel bounds, min is at most max on
every axis. -/
theorem calibration_bounds_monotone :
    (∀ (period : ℤ) (s : CompassSetting ℚ) (d : CompassData ℚ) (now : ℕ),
      (calibration period s d now).1.minX ≤ s.minX ∧
      (calibration period s d now).1.minY ≤ s.minY ∧
      (calibration period s d now).1.minZ ≤ s.minZ ∧
      s.maxX ≤ (calibration period s d now).1.maxX ∧
      s.maxY ≤ (calibration period s d now).1.maxY ∧
      s.maxZ ≤ (calibration period s d now).1.maxZ) ∧
    (∀ (lc period : ℤ) (calls : List (CompassData ℚ × ℕ)),
      (∃ c ∈ calls,
        -100000 ≤ c.1.rawX ∧ c.1.rawX ≤ 100000 ∧
        -100000 ≤ c.1.rawY ∧ c.1.rawY ≤ 100000 ∧
        -100000 ≤ c.1.rawZ ∧ c.1.rawZ ≤ 100000) →
      (runCalibration lc period calls).minX ≤ (runCalibration lc period calls).maxX ∧
      (runCalibration lc period calls).minY ≤ (runCalibration lc period calls).maxY ∧
      (runCalibration lc period calls).minZ ≤ (runCalibration lc period calls).maxZ) := by
  constructor
  · intro period s d now
    refine ⟨?_, ?_, ?_, ?_, ?_, ?_⟩ <;>
      rw [calibration_fst] <;>
      first
      | (rw [calibUpdate_minX]; split_ifs with h; exact le_of_lt h; exact le_refl _)
      | (rw [calibUpdate_minY]; split_ifs with h; exact le_of_lt h; exact le_refl _)
      | (rw [calibUpdate_minZ]; split_ifs with h; exact le_of_lt h; exact le_refl _)
      | (rw [calibUpdate_maxX]; split_ifs with h; exact le_of_lt h; exact le_refl _)
      | (rw [calibUpdate_maxY]; split_ifs with h; exact le_of_lt h; exact le_refl _)
      | (rw [calibUpdate_maxZ]; split_ifs with h; exact le_of_lt h; exact le_refl _)
  · rintro lc period calls ⟨c, hc, -⟩
    obtain ⟨l1, l2, rfl⟩ := List.append_of_mem hc
    have hP : boundsOk
        (l1.foldl (fun s c => (calibration period s c.1 c.2).1) (initSettings lc)) :=
      foldl_boundsOk period l1 _ (boundsOk_init lc)
    have hT : boundsTight (runCalibration lc period (l1 ++ c :: l2)) := by
      rw [runCalibration, List.foldl_append, List.foldl_cons, calibration_fst]
      exact foldl_boundsTight period l2 _ (calibUpdate_tight _ _ _ hP)
    exact hT

/-- Concrete all-zero sample record. -/
def zeroSampleQ : CompassData ℚ := ⟨0, 0, 0, 0, 0, 0, 0⟩

/-- Witness for C2: instantiated at one call with the all-zero sample at
clock 5, whose values lie within the sentinel bounds. -/
theorem calibration_bounds_monotone_witness :
    (runCalibration 0 1000 [(zeroSampleQ, 5)]).minX ≤
      (runCalibration 0 1000 [(zeroSampleQ, 5)]).maxX ∧
    (runCalibration 0 1000 [(zeroSampleQ, 5)]).minY ≤
      (runCalibration 0 1000 [(zeroSampleQ, 5)]).maxY ∧
    (runCalibration 0 1000 [(zeroSampleQ, 5)]).minZ ≤
      (runCalibration 0 1000 [(zeroSampleQ, 5)]).maxZ :=
  calibration_bounds_monotone.2 0 1000 [(zeroSampleQ, 5)]
    ⟨(zeroSampleQ, 5), by decide⟩

/-- Claim C3: the calibration step returns true exactly when the current
clock minus the (possibly just refreshed) last-update timestamp strictly
exceeds the configured period; every call whose sample produces a new
per-axis extreme writes the current clock into that timestamp before the
comparison; and at an elapsed time exactly equal to the period the step
reports not complete. -/
theorem calibration_complete_iff_quiescence :
    defaultCalibrationPeriod = 1000 ∧
    (∀ (period : ℤ) (s : CompassSetting ℚ) (d : CompassData ℚ) (now : ℕ),
      (calibration period s d now).2 = true ↔
        period < (now : ℤ) - (calibUpdate s d now).lastCalibration) ∧
    (∀ (s : CompassSetting ℚ) (d : CompassData ℚ) (now : ℕ),
      (d.rawX < s.minX ∨ d.rawY < s.minY ∨ d.rawZ < s.minZ ∨
       d.rawX > s.maxX ∨ d.rawY > s.maxY ∨ d.rawZ > s.maxZ) →
      (calibUpdate s d now).lastCalibration = (now : ℤ)) ∧
    (∀ (period : ℤ) (s : CompassSetting ℚ) (d : CompassData ℚ) (now : ℕ),
      (now : ℤ) - (calibUpdate s d now).lastCalibration = period →
      (calibration period s d now).2 = false) := by
  refine ⟨rfl, ?_, ?_, ?_⟩
  · intro period s d now
    simp [calibration]
  · intro s d now h
    rw [calibUpdate_last]
    split_ifs with h1 h2 h3 h4 h5 h6
    · rfl
    · rfl
    · rfl
    · rfl
    · rfl
    · rfl
    · rcases h with h | h | h | h | h | h
      · exact absurd h h6
      · exact absurd h h5
      · exact absurd h h4
      · exact absurd h h3
      · exact absurd h h2
      · exact absurd h h1
  · intro period s d now h
    simp only [calibration, decide_eq_false_iff_not]
    rw [h]
    exact lt_irrefl period

/-- Concrete seed record with bounds [-1, 1] on every axis, declination 0
and timestamp 0. -/
def seedRecQ : CompassSetting ℚ := ⟨-1, -1, -1, 1, 1, 1, 0, 0⟩

/-- Witness for C3: the all-zero sample at clock 5 is a new extreme from
the constructed state, so the timestamp becomes 5; and from the seeded
state with bounds [-1, 1], the all-zero sample at clock 1000 with period
1000 gives elapsed time exactly equal to the period, hence not complete. -/
theorem calibration_complete_iff_quiescence_witness :
    (calibUpdate (initSettings 0) zeroSampleQ 5).lastCalibration = (5 : ℤ) ∧
    (calibration 1000 (setCalibration (initSettings 0) seedRecQ) zeroSampleQ
      1000).2 = false :=
  ⟨calibration_complete_iff_quiescence.2.2.1 (initSettings 0) zeroSampleQ 5
      (Or.inl (by decide)),
   calibration_complete_iff_quiescence.2.2.2 1000
      (setCalibration (initSettings 0) seedRecQ) zeroSampleQ 1000 (by decide)⟩

/-- Amended claim C8: setCalibration overwrites the six bounds and the
declination from the supplied record and resets the last-update timestamp
to zero; consequently, for any current clock value strictly greater than
the quiescence period, the very next calibration call whose sample stays
within the seeded bounds on every axis reports complete. -/
theorem setCalibration_seeds_and_completes :
    (∀ (s src : CompassSetting ℚ),
      (setCalibration s src).minX = src.minX ∧
      (setCalibration s src).minY = src.minY ∧
      (setCalibration s src).minZ = src.minZ ∧
      (setCalibration s src).maxX = src.maxX ∧
      (setCalibration s src).maxY = src.maxY ∧
      (setCalibration s src).maxZ = src.maxZ ∧
      (setCalibration s src).heading = src.heading ∧
      (setCalibration s src).lastCalibration = 0) ∧
    (∀ (period : ℤ) (s src : CompassSetting ℚ) (d : CompassData ℚ) (now : ℕ),
      src.minX ≤ d.rawX → d.rawX ≤ src.maxX →
      src.minY ≤ d.rawY → d.rawY ≤ src.maxY →
      src.minZ ≤ d.rawZ → d.rawZ ≤ src.maxZ →
      period < (now : ℤ) →
      (calibration period (setCalibration s src) d now).2 = true) := by
  constructor
  · intro s src
    exact ⟨rfl, rfl, rfl, rfl, rfl, rfl, rfl, rfl⟩
  · intro period s src d now hx1 hx2 hy1 hy2 hz1 hz2 hperiod
    have hlast : (calibUpdate (setCalibration s src) d now).lastCalibration = 0 := by
      rw [calibUpdate_last]
      have e1 : ¬ (d.rawZ > (setCalibration s src).maxZ) := by
        simp only [setCalibration]; exact not_lt.mpr hz2
      have e2 : ¬ (d.rawY > (setCalibration s src).maxY) := by
        simp only [setCalibration]; exact not_lt.mpr hy2
      have e3 : ¬ (d.rawX > (setCalibration s src).maxX) := by
        simp only [setCalibration]; exact not_lt.mpr hx2
      have e4 : ¬ (d.rawZ < (setCalibration s src).minZ) := by
        simp only [setCalibration]; exact not_lt.mpr hz1
      have e5 : ¬ (d.rawY < (setCalibration s src).minY) := by
        simp only [setCalibration]; exact not_lt.mpr hy1
      have e6 : ¬ (d.rawX < (setCalibration s src).minX) := by
        simp only [setCalibration]; exact not_lt.mpr hx1
      rw [if_neg e1, if_neg e2, if_neg e3, if_neg e4, if_neg e5, if_neg e6]
      rfl
    simp only [calibration, decide_eq_true_eq]
    rw [hlast]
    omega

/-- Counterexample to claim C8 as stated: seed the bounds with all zeros
(exactly what the bundled example sketch does), then call calibration at
clock 5000 with period 1000 and the sample (1, 1, 1); the sample is a new
extreme on every axis, the timestamp is refreshed to 5000, and the call
reports not complete even though the clock value exceeds the period. -/
theorem setCalibration_next_call_incomplete_cex :
    (1000 : ℤ) < (5000 : ℤ) ∧
    (calibration 1000
      (setCalibration (initSettings 0) ⟨0, 0, 0, 0, 0, 0, 0, 0⟩)
      ⟨1, 1, 1, 0, 0, 0, 0⟩ 5000).2 = false := by
  decide

/-- Witness for C8: seeding bounds [-1, 1], then the all-zero sample (no
new extreme) at clock 2000 with period 1000 reports complete. -/
theorem setCalibration_seeds_and_completes_witness :
    (calibration 1000 (setCalibration (initSettings 0) seedRecQ) zeroSampleQ
      2000).2 = true :=
  setCalibration_seeds_and_completes.2 1000 (initSettings 0) seedRecQ
    zeroSampleQ 2000 (by decide) (by decide) (by decide) (by decide)
    (by decide) (by decide) (by decide)

/-- Claim C1 (code bug): getCalibration cannot store the current
calibration state of the compass, because the function as written is not a
member and never reads any compass settings.  Two reachable states are
exhibited whose minX values differ (100000 in the constructed state, 0
after one calibration call on the all-zero sample), while for every
possible pointer-byte value and destination record the result of
getCalibration is the same, so its minX misses at least one of the two
states. -/
theorem getCalibration_ignores_compass_state :
    ReachableSetting (initSettings 0) ∧
    ReachableSetting (calibration 1000 (initSettings 0) zeroSampleQ 5).1 ∧
    (initSettings 0).minX = 100000 ∧
    (calibration 1000 (initSettings 0) zeroSampleQ 5).1.minX = 0 ∧
    ∀ (ptrJunk : ℚ) (dest : CompassSetting ℚ),
      (getCalibration ptrJunk dest).minX ≠ (initSettings 0).minX ∨
      (getCalibration ptrJunk dest).minX ≠
        (calibration 1000 (initSettings 0) zeroSampleQ 5).1.minX := by
  refine ⟨ReachableSetting.init 0,
    ReachableSetting.calib _ _ _ _ (ReachableSetting.init 0),
    rfl, by decide, ?_⟩
  intro ptrJunk dest
  by_cases h : ptrJunk = 100000
  · right
    show ptrJunk ≠ _
    rw [h]
    intro hcontra
    have : (calibration 1000 (initSettings 0) zeroSampleQ 5).1.minX = 0 := by decide
    rw [this] at hcontra
    exact absurd hcontra (by norm_num)
  · left
    show ptrJunk ≠ _
    simpa [initSettings] using h

/-- Claim C4: scaleData computes, on every axis, exactly the per-axis
formula of the specification, scaled = (raw - (max+min)/2) divided by
((abs max + abs min)/2), whenever the normalization divisors are nonzero. -/
theorem scaleData_matches_spec_formula (s : CompassSetting ℚ)
    (d : CompassData ℚ)
    (_hx : (abs s.maxX + abs s.minX) / 2 ≠ 0)
    (_hy : (abs s.maxY + abs s.minY) / 2 ≠ 0)
    (_hz : (abs s.maxZ + abs s.minZ) / 2 ≠ 0) :
    (scaleData s d).scaledX = specScaledAxis d.rawX s.minX s.maxX ∧
    (scaleData s d).scaledY = specScaledAxis d.rawY s.minY s.maxY ∧
    (scaleData s d).scaledZ = specScaledAxis d.rawZ s.minZ s.maxZ :=
  ⟨rfl, rfl, rfl⟩

/-- Concrete settings with bounds [-500, 500] on every axis. -/
def test500Q : CompassSetting ℚ := ⟨-500, -500, -500, 500, 500, 500, 0, 0⟩

/-- Concrete raw sample (250, -250, 0). -/
def sample250Q : CompassData ℚ := ⟨250, -250, 0, 0, 0, 0, 0⟩

/-- Witness for C4, at the concrete input of the claim: with bounds
[-500, 500] on all axes and raw = (250, -250, 0) the scaled values are
(1/2, -1/2, 0). -/
theorem scaleData_matches_spec_formula_witness :
    (scaleData test500Q sample250Q).scaledX = 1 / 2 ∧
    (scaleData test500Q sample250Q).scaledY = -(1 / 2) ∧
    (scaleData test500Q sample250Q).scaledZ = 0 := by
  have h := scaleData_matches_spec_formula test500Q sample250Q
    (by norm_num [test500Q]) (by norm_num [test500Q]) (by norm_num [test500Q])
  refine ⟨?_, ?_, ?_⟩
  · rw [h.1]; norm_num [specScaledAxis, test500Q, sample250Q]
  · rw [h.2.1]; norm_num [specScaledAxis, test500Q, sample250Q]
  · rw [h.2.2]; norm_num [specScaledAxis, test500Q, sample250Q]

/-- Counterexample to claim C7 as stated: in the freshly constructed state
the bounds are not zero (minX is the sentinel 100000) and the per-axis
normalization divisor is 100000, not zero. -/
theorem initSettings_divisor_nonzero_cex :
    (initSettings 0).minX ≠ 0 ∧
    (abs (initSettings 0).maxX + abs (initSettings 0).minX) / 2 ≠ 0 := by
  constructor
  · norm_num [initSettings]
  · norm_num [initSettings]

/-- Amended claim C7: calling scaleData before any calibration step does
not divide by zero.  In the freshly constructed state every axis holds the
sentinels min = 100000 and max = -100000, each divisor
(abs max + abs min)/2 equals 100000, and scaleData divides each centered
raw value by 100000; the divisor is zero on an axis exactly in states
whose two bounds make abs max + abs min vanish, that is max = min = 0,
as happens after seeding all-zero bounds through setCalibration (which the
bundled example sketch does), not in the fresh state. -/
theorem scaleData_before_calibration_divisor (lc : ℤ) (d : CompassData ℚ) :
    (abs (initSettings lc).maxX + abs (initSettings lc).minX) / 2 = 100000 ∧
    (abs (initSettings lc).maxY + abs (initSettings lc).minY) / 2 = 100000 ∧
    (abs (initSettings lc).maxZ + abs (initSettings lc).minZ) / 2 = 100000 ∧
    (scaleData (initSettings lc) d).scaledX = d.rawX / 100000 ∧
    (scaleData (initSettings lc) d).scaledY = d.rawY / 100000 ∧
    (scaleData (initSettings lc) d).scaledZ = d.rawZ / 100000 ∧
    ∀ (s : CompassSetting ℚ), s.minX = 0 → s.maxX = 0 →
      (abs s.maxX + abs s.minX) / 2 = 0 := by
  refine ⟨?_, ?_, ?_, ?_, ?_, ?_, ?_⟩
  · norm_num [initSettings]
  · norm_num [initSettings]
  · norm_num [initSettings]
  · simp only [scaleData, initSettings]
    norm_num
  · simp only [scaleData, initSettings]
    norm_num
  · simp only [scaleData, initSettings]
    norm_num
  · intro s h1 h2
    rw [h1, h2]
    norm_num

/-- Concrete all-zero calibration record, the seed the bundled example
sketch passes to setCalibration. -/
def seedZeroQ : CompassSetting ℚ := ⟨0, 0, 0, 0, 0, 0, 0, 0⟩

/-- Witness for C7 (amended): the last conjunct applied to the all-zero
seed record, and the scaled value of the all-zero sample in the fresh
state. -/
theorem scaleData_before_calibration_divisor_witness :
    (scaleData (initSettings 0) zeroSampleQ).scaledX = 0 ∧
    (abs seedZeroQ.maxX + abs seedZeroQ.minX) / 2 = 0 := by
  have h := scaleData_before_calibration_divisor 0 zeroSampleQ
  constructor
  · rw [h.2.2.2.1]; norm_num [zeroSampleQ]
  · exact h.2.2.2.2.2.2 seedZeroQ rfl rfl

/-- Encoding of HMC5883L_FIELDRANGE_4GA (MultiCompassHMC5883L.h line 57). -/
def HMC5883L_FIELDRANGE_4GA : ℕ := 0b100

/-- Encoding of HMC5883L_FIELDRANGE_1_3GA (MultiCompassHMC5883L.h line 60). -/
def HMC5883L_FIELDRANGE_1_3GA : ℕ := 0b001

/-- Encoding of HMC5883L_SAMPLES_8 (MultiCompassHMC5883L.h line 35). -/
def HMC5883L_SAMPLES_8 : ℕ := 0b11

/-- Counterexample to claim C9 as stated: setAveragedSamples does preserve
the register bits outside its field.  With prior register content 1 (bit 0
set) and the 8-sample encoding 0b11, the written byte is 0b01100001, whose
bits outside the samples field 5-6 agree with the prior content. -/
theorem setAveragedSamples_preserves_cex :
    setAveragedSamplesReg 1 HMC5883L_SAMPLES_8 = 0b01100001 ∧
    setAveragedSamplesReg 1 HMC5883L_SAMPLES_8 &&& 0b10011111 =
      1 &&& 0b10011111 := by
  constructor
  · decide
  · decide

set_option maxRecDepth 16384 in
/-- Amended claim C9: setMode, setOutputRate and setAveragedSamples are
all read-modify-write and preserve the register bits outside their written
field for every prior register content; setFieldRange alone is a
full-register overwrite: it writes range shifted left by 5 regardless of
the prior content, zeroing bits 0 through 4, hence fails to preserve
unrelated bits whenever any of them was set. -/
theorem register_ops_read_modify_write :
    (∀ old < 256, ∀ mode < 4,
      setModeReg old mode &&& 0b11111100 = old &&& 0b11111100) ∧
    (∀ old < 256, ∀ rate < 8,
      setOutputRateReg old rate &&& 0b11100011 = old &&& 0b11100011) ∧
    (∀ old < 256, ∀ samples < 4,
      setAveragedSamplesReg old samples &&& 0b10011111 =
        old &&& 0b10011111) ∧
    (∀ old < 256, ∀ range < 8,
      setFieldRangeReg old range = (range <<< 5) % 256 ∧
      setFieldRangeReg old range &&& 0b00011111 = 0) ∧
    (∀ old < 256, old &&& 0b00011111 ≠ 0 → ∀ range < 8,
      setFieldRangeReg old range &&& 0b00011111 ≠ old &&& 0b00011111) := by
  refine ⟨?_, ?_, ?_, ?_, ?_⟩
  · decide
  · decide
  · decide
  · decide
  · decide

/-- Witness for C9 (amended): preservation instances at prior content
0b10101010 and the non-preservation of setFieldRange at prior content 1. -/
theorem register_ops_read_modify_write_witness :
    (setModeReg 0b10101010 2 &&& 0b11111100 = 0b10101010 &&& 0b11111100) ∧
    (setOutputRateReg 0b10101010 5 &&& 0b11100011 =
      0b10101010 &&& 0b11100011) ∧
    (setAveragedSamplesReg 0b10101010 1 &&& 0b10011111 =
      0b10101010 &&& 0b10011111) ∧
    (setFieldRangeReg 1 HMC5883L_FIELDRANGE_4GA &&& 0b00011111 ≠
      1 &&& 0b00011111) :=
  ⟨register_ops_read_modify_write.1 0b10101010 (by decide) 2 (by decide),
   register_ops_read_modify_write.2.1 0b10101010 (by decide) 5 (by decide),
   register_ops_read_modify_write.2.2.1 0b10101010 (by decide) 1 (by decide),
   register_ops_read_modify_write.2.2.2.2 1 (by decide) (by decide)
     HMC5883L_FIELDRANGE_4GA (by decide)⟩

/-- Counterexample to claim C10 as stated: writing the field range
encoding 0b100 (the 4 gauss setting) and reading it back yields 0, not
0b100, because getFieldRange masks only two bits. -/
theorem fieldRange_roundtrip_cex :
    getFieldRangeReg (setFieldRangeReg 0 HMC5883L_FIELDRANGE_4GA) = 0 ∧
    HMC5883L_FIELDRANGE_4GA ≠ 0 := by
  constructor
  · decide
  · decide

/-- Amended claim C10: for every prior register content and every field
range encoding below 8, reading back after setFieldRange yields the
encoding reduced mod 4; the set/get round trip therefore returns the same
range exactly for the four encodings below 4. -/
theorem fieldRange_roundtrip_mod4 (old range : ℕ) (h : range < 8) :
    getFieldRangeReg (setFieldRangeReg old range) = range % 4 ∧
    (getFieldRangeReg (setFieldRangeReg old range) = range ↔ range < 4) := by
  interval_cases range <;>
    exact ⟨by simp only [setFieldRangeReg, getFieldRangeReg]; decide,
           by simp only [setFieldRangeReg, getFieldRangeReg]; decide⟩

/-- Witness for C10 (amended): the round trip at the 1.3 gauss encoding
0b001 returns the same encoding. -/
theorem fieldRange_roundtrip_mod4_witness :
    getFieldRangeReg (setFieldRangeReg 0 HMC5883L_FIELDRANGE_1_3GA) =
      HMC5883L_FIELDRANGE_1_3GA % 4 ∧
    (getFieldRangeReg (setFieldRangeReg 0 HMC5883L_FIELDRANGE_1_3GA) =
      HMC5883L_FIELDRANGE_1_3GA ↔ HMC5883L_FIELDRANGE_1_3GA < 4) :=
  fieldRange_roundtrip_mod4 0 HMC5883L_FIELDRANGE_1_3GA (by decide)

lemma atan2_zero_one : atan2 0 1 = 0 := by
  unfold atan2
  rw [if_pos one_pos]
  norm_num

lemma atan2_zero_neg_one : atan2 0 (-1) = Real.pi := by
  unfold atan2
  rw [if_neg (by norm_num), if_pos (by norm_num : (-1 : ℝ) < 0),
    if_pos (le_refl (0 : ℝ))]
  norm_num

lemma atan2_smul_pos (a b w : ℝ) (hw : 0 < w) :
    atan2 (a * w) (b * w) = atan2 a b := by
  unfold atan2
  rcases lt_trichotomy b 0 with hb | hb | hb
  · have hbw : b * w < 0 := mul_neg_of_neg_of_pos hb hw
    rw [if_neg (not_lt.mpr hbw.le), if_pos hbw, if_neg (not_lt.mpr hb.le),
      if_pos hb, mul_div_mul_right a b (ne_of_gt hw)]
    by_cases ha : 0 ≤ a
    · rw [if_pos (mul_nonneg ha hw.le), if_pos ha]
    · have ha2 : a * w < 0 := mul_neg_of_neg_of_pos (lt_of_not_ge ha) hw
      rw [if_neg (not_le.mpr ha2), if_neg ha]
  · subst hb
    rw [zero_mul]
    simp only [lt_self_iff_false, if_false]
    rcases lt_trichotomy a 0 with ha | ha | ha
    · have haw : a * w < 0 := mul_neg_of_neg_of_pos ha hw
      rw [if_neg (not_lt.mpr haw.le), if_pos haw,
        if_neg (not_lt.mpr ha.le), if_pos ha]
    · subst ha
      rw [zero_mul]
    · have haw : 0 < a * w := mul_pos ha hw
      rw [if_pos haw, if_pos ha]
  · have hbw : 0 < b * w := mul_pos hb hw
    rw [if_pos hbw, if_pos hb, mul_div_mul_right a b (ne_of_gt hw)]

lemma normalizeHeading_zero : normalizeHeading 0 = 0 := by
  unfold normalizeHeading
  rw [if_neg (lt_irrefl 0),
    if_neg (not_lt.mpr (by positivity : (0 : ℝ) ≤ 2 * Real.pi))]

lemma normalizeHeading_pi : normalizeHeading Real.pi = Real.pi := by
  unfold normalizeHeading
  rw [if_neg (not_lt.mpr Real.pi_pos.le),
    if_neg (not_lt.mpr (by linarith [Real.pi_pos] : Real.pi ≤ 2 * Real.pi))]

lemma normalizeHeading_two_pi :
    normalizeHeading (2 * Real.pi) = 2 * Real.pi := by
  unfold normalizeHeading
  rw [if_neg (not_lt.mpr (by positivity : (0 : ℝ) ≤ 2 * Real.pi)),
    if_neg (lt_irrefl (2 * Real.pi))]

lemma calculateHeading_heading (s : CompassSetting ℝ) (d : CompassData ℝ)
    (x y z : ℤ) :
    (calculateHeading s d x y z).heading =
      normalizeHeading
        (atan2 (headingAxes d x y z).2 (headingAxes d x y z).1 + s.heading) :=
  rfl

lemma headingAxes_weight_x (d : CompassData ℝ) (x y z : ℤ) (hx : x ≠ 0) :
    headingAxes d x y z = (d.scaledY * (x : ℝ), d.scaledZ * (x : ℝ)) := by
  simp [headingAxes, hx]

lemma headingAxes_weight_y (d : CompassData ℝ) (x y z : ℤ) (hx : x = 0)
    (hy : y ≠ 0) :
    headingAxes d x y z = (d.scaledX * (y : ℝ), d.scaledZ * (y : ℝ)) := by
  simp [headingAxes, hx, hy]

lemma headingAxes_weight_z (d : CompassData ℝ) (x y z : ℤ) (hx : x = 0)
    (hy : y = 0) (hz : z ≠ 0) :
    headingAxes d x y z = (d.scaledX * (z : ℝ), d.scaledY * (z : ℝ)) := by
  simp [headingAxes, hx, hy, hz]

/-- Amended claim C5: for every positive axis-weight argument,
calculateHeading applies atan2 to the two scaled axes other than the
selected one, in the fixed order weight-on-x giving atan2(scaledZ,
scaledY), weight-on-y giving atan2(scaledZ, scaledX), weight-on-z giving
atan2(scaledY, scaledX); x is checked first, so whenever the x weight is
nonzero only the x branch is taken, regardless of y and z.  For a negative
weight both atan2 arguments are multiplied by the weight, which negates
them and can shift the result by pi, so the claim is restricted to
positive weights. -/
theorem calculateHeading_positive_weight (s : CompassSetting ℝ)
    (d : CompassData ℝ) (x y z : ℤ) :
    (0 < x → (calculateHeading s d x y z).heading =
      normalizeHeading (atan2 d.scaledZ d.scaledY + s.heading)) ∧
    (x = 0 → 0 < y → (calculateHeading s d x y z).heading =
      normalizeHeading (atan2 d.scaledZ d.scaledX + s.heading)) ∧
    (x = 0 → y = 0 → 0 < z → (calculateHeading s d x y z).heading =
      normalizeHeading (atan2 d.scaledY d.scaledX + s.heading)) := by
  refine ⟨?_, ?_, ?_⟩
  · intro hx
    have hw : (0 : ℝ) < (x : ℝ) := by exact_mod_cast hx
    rw [calculateHeading_heading,
      headingAxes_weight_x d x y z (ne_of_gt hx)]
    dsimp only
    rw [atan2_smul_pos d.scaledZ d.scaledY (x : ℝ) hw]
  · intro hx hy
    have hw : (0 : ℝ) < (y : ℝ) := by exact_mod_cast hy
    rw [calculateHeading_heading,
      headingAxes_weight_y d x y z hx (ne_of_gt hy)]
    dsimp only
    rw [atan2_smul_pos d.scaledZ d.scaledX (y : ℝ) hw]
  · intro hx hy hz
    have hw : (0 : ℝ) < (z : ℝ) := by exact_mod_cast hz
    rw [calculateHeading_heading,
      headingAxes_weight_z d x y z hx hy (ne_of_gt hz)]
    dsimp only
    rw [atan2_smul_pos d.scaledY d.scaledX (z : ℝ) hw]

/-- Settings record over the reals with declination 0. -/
def zeroDeclR : CompassSetting ℝ := ⟨0, 0, 0, 0, 0, 0, 0, 0⟩

/-- Data record over the reals with scaledX = 1 and scaledY = scaledZ = 0. -/
def unitXData : CompassData ℝ := ⟨0, 0, 0, 1, 0, 0, 0⟩

lemma headingAxes_unitX (z : ℤ) (hz : z ≠ 0) :
    headingAxes unitXData 0 0 z = ((z : ℝ), 0) := by
  rw [headingAxes_weight_z unitXData 0 0 z rfl rfl hz]
  norm_num [unitXData]

/-- Counterexample to claim C5 as stated: with scaledX = 1, scaledY = 0,
declination 0 and the nonzero z weight -1, the code computes
atan2(0 * -1, 1 * -1) = atan2(0, -1) = pi, not the claimed
atan2(scaledY, scaledX) = atan2(0, 1) = 0. -/
theorem calculateHeading_negative_weight_cex :
    (calculateHeading zeroDeclR unitXData 0 0 (-1)).heading = Real.pi ∧
    normalizeHeading
      (atan2 unitXData.scaledY unitXData.scaledX + zeroDeclR.heading) = 0 ∧
    Real.pi ≠ 0 := by
  refine ⟨?_, ?_, Real.pi_ne_zero⟩
  · rw [calculateHeading_heading, headingAxes_unitX (-1) (by decide)]
    dsimp only
    norm_num [zeroDeclR]
    rw [atan2_zero_neg_one, normalizeHeading_pi]
  · have h1 : unitXData.scaledY = 0 := rfl
    have h2 : unitXData.scaledX = 1 := rfl
    have h3 : zeroDeclR.heading = 0 := rfl
    rw [h1, h2, h3, add_zero, atan2_zero_one, normalizeHeading_zero]

/-- Witness for C5 (amended): the concrete test of the claim, scaledX = 1,
scaledY = 0, weight-on-z (value 1) and declination 0 give heading 0. -/
theorem calculateHeading_positive_weight_witness :
    (calculateHeading zeroDeclR unitXData 0 0 1).heading = 0 := by
  have h := (calculateHeading_positive_weight zeroDeclR unitXData 0 0 1).2.2
    rfl rfl one_pos
  rw [h]
  have h1 : unitXData.scaledY = 0 := rfl
  have h2 : unitXData.scaledX = 1 := rfl
  have h3 : zeroDeclR.heading = 0 := rfl
  rw [h1, h2, h3, add_zero, atan2_zero_one, normalizeHeading_zero]

/-- Amended claim C6: after adding the declination offset, the single-pass
normalization adds two pi once when the sum is negative and subtracts two
pi once when the sum is strictly greater than two pi; hence whenever the
pre-normalization sum lies in the interval from -2 pi inclusive to 4 pi
exclusive, the stored heading lies in [0, 2 pi], it lies in [0, 2 pi)
whenever the sum differs from exactly 2 pi, and at the boundary sum of
exactly 2 pi the stored heading is 2 pi itself, outside [0, 2 pi). -/
theorem calculateHeading_normalization_range (s : CompassSetting ℝ)
    (d : CompassData ℝ) (x y z : ℤ)
    (hlo : -(2 * Real.pi) ≤
      atan2 (headingAxes d x y z).2 (headingAxes d x y z).1 + s.heading)
    (hhi : atan2 (headingAxes d x y z).2 (headingAxes d x y z).1 + s.heading <
      4 * Real.pi) :
    (0 ≤ (calculateHeading s d x y z).heading ∧
      (calculateHeading s d x y z).heading ≤ 2 * Real.pi) ∧
    (atan2 (headingAxes d x y z).2 (headingAxes d x y z).1 + s.heading ≠
        2 * Real.pi →
      (calculateHeading s d x y z).heading < 2 * Real.pi) ∧
    (atan2 (headingAxes d x y z).2 (headingAxes d x y z).1 + s.heading =
        2 * Real.pi →
      (calculateHeading s d x y z).heading = 2 * Real.pi) := by
  rw [calculateHeading_heading]
  unfold normalizeHeading
  split_ifs with h1 h2
  · exact ⟨⟨by linarith, by linarith [Real.pi_pos]⟩,
      fun _ => by linarith [Real.pi_pos],
      fun he => by rw [he] at h1; linarith [Real.pi_pos]⟩
  · push_neg at h1
    exact ⟨⟨by linarith, by linarith⟩,
      fun _ => by linarith,
      fun he => by rw [he] at h2; linarith [Real.pi_pos]⟩
  · push_neg at h1 h2
    exact ⟨⟨h1, h2⟩, fun hne => lt_of_le_of_ne h2 hne, fun he => he⟩

/-- Settings record over the reals with declination exactly two pi. -/
noncomputable def declTwoPiR : CompassSetting ℝ := ⟨0, 0, 0, 0, 0, 0, 2 * Real.pi, 0⟩

/-- Counterexample to claim C6 as stated: with scaledX = 1, scaledY = 0,
weight-on-z and declination 2 pi, the pre-normalization sum is exactly
2 pi, which lies in the claimed interval, yet the stored heading is 2 pi,
not an element of [0, 2 pi). -/
theorem calculateHeading_boundary_two_pi_cex :
    (-(2 * Real.pi) ≤
      atan2 (headingAxes unitXData 0 0 1).2 (headingAxes unitXData 0 0 1).1 +
        declTwoPiR.heading) ∧
    (atan2 (headingAxes unitXData 0 0 1).2 (headingAxes unitXData 0 0 1).1 +
      declTwoPiR.heading < 4 * Real.pi) ∧
    (calculateHeading declTwoPiR unitXData 0 0 1).heading = 2 * Real.pi ∧
    ¬ ((calculateHeading declTwoPiR unitXData 0 0 1).heading <
        2 * Real.pi) := by
  have hsum : atan2 (headingAxes unitXData 0 0 1).2
      (headingAxes unitXData 0 0 1).1 + declTwoPiR.heading = 2 * Real.pi := by
    rw [headingAxes_unitX 1 (by decide)]
    dsimp only
    have h3 : declTwoPiR.heading = 2 * Real.pi := rfl
    rw [h3]
    norm_num [atan2_zero_one]
  refine ⟨by rw [hsum]; linarith [Real.pi_pos],
    by rw [hsum]; linarith [Real.pi_pos], ?_, ?_⟩
  · rw [calculateHeading_heading, hsum, normalizeHeading_two_pi]
  · rw [calculateHeading_heading, hsum, normalizeHeading_two_pi]
    exact lt_irrefl _

/-- Settings record over the reals with declination exactly pi. -/
noncomputable def declPiR : CompassSetting ℝ := ⟨0, 0, 0, 0, 0, 0, Real.pi, 0⟩

/-- Witness for C6 (amended): with declination pi the pre-normalization
sum is pi, inside the interval and different from 2 pi, and the stored
heading lies in [0, 2 pi). -/
theorem calculateHeading_normalization_range_witness :
    0 ≤ (calculateHeading declPiR unitXData 0 0 1).heading ∧
    (calculateHeading declPiR unitXData 0 0 1).heading < 2 * Real.pi := by
  have hsum : atan2 (headingAxes unitXData 0 0 1).2
      (headingAxes unitXData 0 0 1).1 + declPiR.heading = Real.pi := by
    rw [headingAxes_unitX 1 (by decide)]
    dsimp only
    have h3 : declPiR.heading = Real.pi := rfl
    rw [h3]
    norm_num [atan2_zero_one]
  have h := calculateHeading_normalization_range declPiR unitXData 0 0 1
    (by rw [hsum]; linarith [Real.pi_pos])
    (by rw [hsum]; linarith [Real.pi_pos])
  exact ⟨h.1.1, h.2.1 (by rw [hsum]; intro he; linarith [Real.pi_pos])⟩

/-- Witness for C1: the last conjunct of the theorem instantiated at the
pointer-junk value 7 and the all-zero destination record. -/
theorem getCalibration_ignores_compass_state_witness :
    (getCalibration 7 seedZeroQ).minX ≠ (initSettings 0).minX ∨
    (getCalibration 7 seedZeroQ).minX ≠
      (calibration 1000 (initSettings 0) zeroSampleQ 5).1.minX :=
  getCalibration_ignores_compass_state.2.2.2.2 7 seedZeroQ
